import Mathlib

/-!
# Verification of the apscheduler `Job` entity (src/lib/apscheduler/job.py)

Shallow embedding of the `Job` class: its validated mutation protocol
(`Job._modify`), run-time enumeration (`Job._get_run_times`), and the
versioned serialization contract (`Job.__getstate__` / `Job.__setstate__`).

Modelling conventions:
* Timestamps (`datetime.datetime`) are modelled as `Nat`; `None`-able
  datetimes as `Option Nat`.  `datetime` objects are always truthy in
  Python; `None` is falsy, which matches `Option Nat` with `none` falsy.
* Python objects that flow through the dynamically typed validation code
  are modelled by the inductive `PyObj` below.
* Callables are modelled as opaque numeric codes (`Nat`); the callable
  registry of `apscheduler.util` (not under src) is a parameter, see `Env`.
* A Python attribute that may be *unset* on a slotted object (read before
  assignment raises `AttributeError`) is modelled as an `Option` field;
  see the comments on `Job`.
-/

/-- A dynamically typed Python value, as far as the validation code in
`Job._modify` discriminates them.  `pyCallable` carries an opaque code for
the callable; `pyTrigger` carries the trigger object's `get_next_fire_time`
function `(previous, now) -> timestamp | None`. -/
inductive PyObj where
  | pyNone
  | pyBool (b : Bool)
  | pyInt (n : Int)
  | pyStr (s : String)
  | pyList (xs : List PyObj)
  | pyTuple (xs : List PyObj)
  | pyDict (xs : List (String × PyObj))
  | pyCallable (code : Nat)
  | pyTrigger (next_fire : Nat → Nat → Option Nat)
  | pyDatetime (t : Nat)

namespace PyObj

/-- `isinstance(v, six.string_types)` (Python 3: `str`). -/
def isStr : PyObj → Bool
  | pyStr _ => true
  | _ => false

/-- `isinstance(v, collections.abc.Iterable)`: strings, lists, tuples and
dicts are iterable; `None`, booleans, ints, callables, trigger objects and
datetimes are not. -/
def isIterable : PyObj → Bool
  | pyStr _ => true
  | pyList _ => true
  | pyTuple _ => true
  | pyDict _ => true
  | _ => false

/-- `isinstance(v, collections.abc.Mapping)`: only dicts. -/
def isMapping : PyObj → Bool
  | pyDict _ => true
  | _ => false

/-- `isinstance(v, six.integer_types)`.  Python `bool` is a subclass of
`int`, so booleans pass this check. -/
def isInteger : PyObj → Bool
  | pyInt _ => true
  | pyBool _ => true
  | _ => false

/-- The integer value of a `PyObj` that passes `isInteger`
(`True == 1`, `False == 0`). -/
def intValue : PyObj → Int
  | pyInt n => n
  | pyBool b => if b then 1 else 0
  | _ => 0

/-- `callable(v)`. -/
def isCallableObj : PyObj → Bool
  | pyCallable _ => true
  | _ => false

/-- Python truthiness (`bool(v)` / `not v`): `None`, `False`, zero, and
empty strings/collections are falsy; everything else is truthy. -/
def truthy : PyObj → Bool
  | pyNone => false
  | pyBool b => b
  | pyInt n => n ≠ 0
  | pyStr s => !s.isEmpty
  | pyList xs => !xs.isEmpty
  | pyTuple xs => !xs.isEmpty
  | pyDict xs => !xs.isEmpty
  | pyCallable _ => true
  | pyTrigger _ => true
  | pyDatetime _ => true

end PyObj

/-- The Python exceptions raised by the `Job` code. -/
inductive PyError where
  | typeError (msg : String)
  | valueError (msg : String)
  | attributeError (msg : String)
  | lookupError (msg : String)
deriving DecidableEq, Repr

/-- Modelled from the spec: `apscheduler.util` is not under src, so the
callable registry and datetime conversion it provides are parameters.
Per spec section 6, the callable registry offers
`resolve(name) -> invocable | fails` (`ref_to_obj`; `none` models the
raised lookup error) and `derive_reference(invocable) -> name | absent`
(`obj_to_ref`; `none` models the caught `ValueError`, i.e. no derivable
textual reference).  `get_callable_name` yields the default display name of
a callable and `check_callable_args` is the signature-compatibility check
(`false` models the raised error).  `convert_to_datetime` converts a
proposed `next_run_time` value (`none` models a conversion error; `some d`
an accepted `None`-able timestamp). -/
structure Env where
  ref_to_obj : String → Option Nat
  obj_to_ref : Nat → Option String
  get_callable_name : Nat → String
  check_callable_args : Nat → PyObj → PyObj → Bool
  convert_to_datetime : PyObj → Option (Option Nat)

/-- The `Job` entity's own fields (the `_scheduler` / `_jobstore_alias`
backrefs are external collaborators and are not modelled).

`id`, `func`, `args`, `kwargs` and `name` are `Option`s whose `none` means
*the slot was never assigned* (`hasattr` is false; reading raises
`AttributeError`): `_modify` observes that state on a freshly constructed
object.  `func_ref` is `Option String` where `none` is the Python value
`None` (recorded when no textual reference is derivable).
`misfire_grace_time` and `next_run_time` are `Option`s whose `none` is the
Python value `None`. -/
structure Job where
  id : Option String
  func : Option Nat
  func_ref : Option String
  args : Option PyObj
  kwargs : Option PyObj
  name : Option String
  misfire_grace_time : Option Int
  coalesce : Bool
  max_instances : Int
  trigger : Nat → Nat → Option Nat
  executor : String
  next_run_time : Option Nat

/-- The keyword-argument batch passed to `Job._modify(**changes)`: at most
one proposed value per recognized field name, plus the list of unrecognized
field names present in the batch. -/
structure Changes where
  id : Option PyObj := none
  func : Option PyObj := none
  args : Option PyObj := none
  kwargs : Option PyObj := none
  name : Option PyObj := none
  misfire_grace_time : Option PyObj := none
  coalesce : Option PyObj := none
  max_instances : Option PyObj := none
  trigger : Option PyObj := none
  executor : Option PyObj := none
  next_run_time : Option PyObj := none
  unknown : List String := []

/-- The `approved` dict built by `Job._modify`: validated values awaiting
the final commit loop.  The func group is `(func, func_ref, args, kwargs)`,
approved together. -/
structure Approved where
  id : Option String := none
  funcGroup : Option (Nat × Option String × PyObj × PyObj) := none
  name : Option String := none
  misfire_grace_time : Option (Option Int) := none
  coalesce : Option Bool := none
  max_instances : Option Int := none
  trigger : Option (Nat → Nat → Option Nat) := none
  executor : Option String := none
  next_run_time : Option (Option Nat) := none

namespace Job

/-- The `id` branch of `_modify`: type check first (`TypeError`), then the
immutability check `hasattr(self, 'id')` (`ValueError`). -/
def checkId (j : Job) (c : Changes) : Except PyError (Option String) :=
  match c.id with
  | none => .ok none
  | some v =>
    match v with
    | .pyStr s =>
      if j.id.isSome then .error (.valueError "The job ID may not be changed")
      else .ok (some s)
    | _ => .error (.typeError "id must be a nonempty string")

/-- `func = changes.pop('func') if 'func' in changes else self.func`;
reading the unset slot raises `AttributeError`. -/
def readFunc (j : Job) (c : Changes) : Except PyError PyObj :=
  match c.func with
  | some v => .ok v
  | none =>
    match j.func with
    | some f => .ok (.pyCallable f)
    | none => .error (.attributeError "func")

/-- `args = changes.pop('args') if 'args' in changes else self.args`. -/
def readArgs (j : Job) (c : Changes) : Except PyError PyObj :=
  match c.args with
  | some v => .ok v
  | none =>
    match j.args with
    | some a => .ok a
    | none => .error (.attributeError "args")

/-- `kwargs = changes.pop('kwargs') if 'kwargs' in changes else self.kwargs`. -/
def readKwargs (j : Job) (c : Changes) : Except PyError PyObj :=
  match c.kwargs with
  | some v => .ok v
  | none =>
    match j.kwargs with
    | some k => .ok k
    | none => .error (.attributeError "kwargs")

/-- Resolution of the proposed `func`: a textual reference is resolved via
the registry (failure raises); a direct callable gets a reference derived,
with a failed derivation caught and recorded as `None`; anything else is a
`TypeError`. -/
def resolveFunc (env : Env) : PyObj → Except PyError (Nat × Option String)
  | .pyStr s =>
    match env.ref_to_obj s with
    | some f => .ok (f, some s)
    | none => .error (.lookupError s)
  | .pyCallable f => .ok (f, env.obj_to_ref f)
  | _ => .error (.typeError "func must be a callable or a textual reference to one")

/-- `changes.get('name', None) is None`: the key is absent or maps to `None`. -/
def nameAbsentOrNone : Option PyObj → Bool
  | none => true
  | some .pyNone => true
  | some _ => false

/-- The `func`/`args`/`kwargs` group branch of `_modify`.  Returns the
approved group (or `none` when the branch is not entered) together with
the effective `name` entry of `changes` (the branch injects a default name
derived from the callable when the job has no name and none was supplied). -/
def checkFuncGroup (env : Env) (j : Job) (c : Changes) :
    Except PyError (Option (Nat × Option String × PyObj × PyObj) × Option PyObj) :=
  if c.func.isSome || c.args.isSome || c.kwargs.isSome then
    match readFunc j c with
    | .error e => .error e
    | .ok funcObj =>
      match readArgs j c with
      | .error e => .error e
      | .ok argsObj =>
        match readKwargs j c with
        | .error e => .error e
        | .ok kwargsObj =>
          match resolveFunc env funcObj with
          | .error e => .error e
          | .ok (func, fref) =>
            let nameChange :=
              if j.name.isNone && nameAbsentOrNone c.name then
                some (PyObj.pyStr (env.get_callable_name func))
              else c.name
            if argsObj.isStr || !argsObj.isIterable then
              .error (.typeError "args must be a non-string iterable")
            else if kwargsObj.isStr || !kwargsObj.isMapping then
              .error (.typeError "kwargs must be a dict-like object")
            else if env.check_callable_args func argsObj kwargsObj then
              .ok (some (func, fref, argsObj, kwargsObj), nameChange)
            else .error (.typeError "the given args and kwargs do not match the signature of func")
  else .ok (none, c.name)

/-- The `name` branch: `if not value or not isinstance(value, str): raise`. -/
def checkName : Option PyObj → Except PyError (Option String)
  | none => .ok none
  | some v =>
    if !v.truthy then .error (.typeError "name must be a nonempty string")
    else
      match v with
      | .pyStr s => .ok (some s)
      | _ => .error (.typeError "name must be a nonempty string")

/-- The `misfire_grace_time` branch: `None` passes; otherwise the value
must be a positive integer. -/
def checkMisfire : Option PyObj → Except PyError (Option (Option Int))
  | none => .ok none
  | some .pyNone => .ok (some none)
  | some v =>
    if v.isInteger && v.intValue > 0 then .ok (some (some v.intValue))
    else .error (.typeError "misfire_grace_time must be either None or a positive integer")

/-- The `coalesce` branch: `bool(value)`, never fails. -/
def checkCoalesce : Option PyObj → Except PyError (Option Bool)
  | none => .ok none
  | some v => .ok (some v.truthy)

/-- The `max_instances` branch: a positive integer is required. -/
def checkMaxInstances : Option PyObj → Except PyError (Option Int)
  | none => .ok none
  | some v =>
    if v.isInteger && v.intValue > 0 then .ok (some v.intValue)
    else .error (.typeError "max_instances must be a positive integer")

/-- The `trigger` branch: `isinstance(trigger, BaseTrigger)` is required. -/
def checkTrigger : Option PyObj → Except PyError (Option (Nat → Nat → Option Nat))
  | none => .ok none
  | some (.pyTrigger f) => .ok (some f)
  | some _ => .error (.typeError "Expected a trigger instance")

/-- The `executor` branch: a string is required. -/
def checkExecutor : Option PyObj → Except PyError (Option String)
  | none => .ok none
  | some (.pyStr s) => .ok (some s)
  | some _ => .error (.typeError "executor must be a string")

/-- The `next_run_time` branch: `convert_to_datetime` (which may raise). -/
def checkNextRunTime (env : Env) : Option PyObj → Except PyError (Option (Option Nat))
  | none => .ok none
  | some v =>
    match env.convert_to_datetime v with
    | some d => .ok (some d)
    | none => .error (.typeError "Unsupported type for next_run_time")

/-- The validation phase of `Job._modify`, in source order; the final step
is the unrecognized-field check (`if changes: raise AttributeError`).
No field of the job is assigned during this phase (the source only reads
`self`). -/
def validate (env : Env) (j : Job) (c : Changes) : Except PyError Approved :=
  match checkId j c with
  | .error e => .error e
  | .ok idOk =>
    match checkFuncGroup env j c with
    | .error e => .error e
    | .ok (fg, nameChange) =>
      match checkName nameChange with
      | .error e => .error e
      | .ok nameOk =>
        match checkMisfire c.misfire_grace_time with
        | .error e => .error e
        | .ok misfireOk =>
          match checkCoalesce c.coalesce with
          | .error e => .error e
          | .ok coalesceOk =>
            match checkMaxInstances c.max_instances with
            | .error e => .error e
            | .ok maxInstOk =>
              match checkTrigger c.trigger with
              | .error e => .error e
              | .ok triggerOk =>
                match checkExecutor c.executor with
                | .error e => .error e
                | .ok executorOk =>
                  match checkNextRunTime env c.next_run_time with
                  | .error e => .error e
                  | .ok nrtOk =>
                    if c.unknown.isEmpty then
                      .ok { id := idOk, funcGroup := fg, name := nameOk,
                            misfire_grace_time := misfireOk, coalesce := coalesceOk,
                            max_instances := maxInstOk, trigger := triggerOk,
                            executor := executorOk, next_run_time := nrtOk }
                    else
                      .error (.attributeError
                        ("The following are not modifiable attributes of Job: "
                          ++ String.intercalate ", " c.unknown))

/-- The commit loop of `_modify`: `for key, value in iteritems(approved):
setattr(self, key, value)`. -/
def commit (j : Job) (a : Approved) : Job :=
  { id := match a.id with | some s => some s | none => j.id
    func := match a.funcGroup with | some (f, _, _, _) => some f | none => j.func
    func_ref := match a.funcGroup with | some (_, r, _, _) => r | none => j.func_ref
    args := match a.funcGroup with | some (_, _, ar, _) => some ar | none => j.args
    kwargs := match a.funcGroup with | some (_, _, _, kw) => some kw | none => j.kwargs
    name := match a.name with | some s => some s | none => j.name
    misfire_grace_time := match a.misfire_grace_time with | some m => m | none => j.misfire_grace_time
    coalesce := a.coalesce.getD j.coalesce
    max_instances := a.max_instances.getD j.max_instances
    trigger := a.trigger.getD j.trigger
    executor := a.executor.getD j.executor
    next_run_time := match a.next_run_time with | some t => t | none => j.next_run_time }

/-- `Job._modify(**changes)` as a state transformer: the resulting object
state paired with the raised exception, if any.  All `setattr` calls in the
source happen after every validation step, so on an exception the returned
state is the input state. -/
def _modify (env : Env) (j : Job) (c : Changes) : Job × Option PyError :=
  match validate env j c with
  | .error e => (j, some e)
  | .ok a => (commit j a, none)

end Job

namespace Job

/-- The `while next_run_time and next_run_time <= now` loop of
`Job._get_run_times`, with explicit fuel to make the loop total in Lean.
The caller passes `now + 1` fuel: under the trigger contract of spec
section 6 (strict monotonicity) the loop iterates at most `now + 1` times,
so the fuel is never exhausted there. -/
def getRunTimesAux (trig : Nat → Nat → Option Nat) (now : Nat) :
    Option Nat → Nat → List Nat
  | some t, fuel + 1 =>
    if t ≤ now then t :: getRunTimesAux trig now (trig t now) fuel else []
  | some _, 0 => []
  | none, _ => []

/-- `Job._get_run_times(now)` as a state transformer: the computed run
times paired with the object state after the call.  The source assigns
only to the local variable `next_run_time` (which shadows the field) and
never writes to `self`, so the post state is the input state. -/
def _get_run_times (j : Job) (now : Nat) : List Nat × Job :=
  (getRunTimesAux j.trigger now j.next_run_time (now + 1), j)

/-- The versioned snapshot produced by `Job.__getstate__` (spec section 6,
layout version 1).  `version` is `Option` so that a snapshot lacking the
tag entirely (`state.get('version', 1)`) can be expressed. -/
structure JobState1 where
  version : Option Int
  id : String
  func : String
  trigger : Nat → Nat → Option Nat
  executor : String
  args : PyObj
  kwargs : PyObj
  name : String
  misfire_grace_time : Option Int
  coalesce : Bool
  max_instances : Int
  next_run_time : Option Nat

/-- `if not self.func_ref:` — Python `None` and the empty string are both
falsy. -/
def funcRefFalsy : Option String → Bool
  | none => true
  | some s => s.isEmpty

/-- The refusal message of `__getstate__` when `func_ref` is falsy. -/
def noFuncRefMsg : String :=
  "This Job cannot be serialized since the reference to its callable could not be determined. Consider giving a textual reference (module:function name) instead."

/-- `Job.__getstate__`: refuses to serialize when no textual reference to
the callable was derived, otherwise returns the version-1 snapshot.
Reading an unset slot (possible only on a partially constructed object)
raises `AttributeError`; the distinct unset slots are conflated into one
error case since no claim distinguishes them. -/
def getstate (j : Job) : Except PyError JobState1 :=
  if funcRefFalsy j.func_ref then
    .error (.valueError noFuncRefMsg)
  else
    match j.func_ref, j.id, j.args, j.kwargs, j.name with
    | some r, some i, some a, some k, some nm =>
      .ok { version := some 1, id := i, func := r, trigger := j.trigger,
            executor := j.executor, args := a, kwargs := k, name := nm,
            misfire_grace_time := j.misfire_grace_time, coalesce := j.coalesce,
            max_instances := j.max_instances, next_run_time := j.next_run_time }
    | _, _, _, _, _ => .error (.attributeError "unset slot")

/-- The error raised by `__setstate__` on a snapshot newer than version 1. -/
def versionErrMsg : String := "Job has a newer version than this one can handle"

/-- `Job.__setstate__(state)` as a state transformer on the fresh unpickled
object `j`: the version guard runs before any assignment; then `id` and
`func_ref` are assigned before the textual reference is re-resolved (so a
resolution failure leaves those two assigned); on success every field from
the snapshot is assigned. -/
def setstate (env : Env) (j : Job) (s : JobState1) : Job × Option PyError :=
  if s.version.getD 1 > 1 then (j, some (.valueError versionErrMsg))
  else
    let j1 := { j with id := some s.id, func_ref := some s.func }
    match env.ref_to_obj s.func with
    | none => (j1, some (.lookupError s.func))
    | some f =>
      ({ j1 with func := some f, trigger := s.trigger, executor := s.executor,
                 args := some s.args, kwargs := some s.kwargs, name := some s.name,
                 misfire_grace_time := s.misfire_grace_time, coalesce := s.coalesce,
                 max_instances := s.max_instances, next_run_time := s.next_run_time },
       none)

end Job

/-! ### Concrete instances used as test vectors and witnesses -/

/-- A concrete callable registry: callable `0` is registered under
`"mod:fn"`, callable `1` is a direct invocable with no derivable textual
reference.  All signatures accept all arguments. -/
def env0 : Env where
  ref_to_obj := fun s => if s = "mod:fn" then some 0 else none
  obj_to_ref := fun n => if n = 0 then some "mod:fn" else none
  get_callable_name := fun _ => "fn"
  check_callable_args := fun _ _ _ => true
  convert_to_datetime := fun v =>
    match v with
    | .pyNone => some none
    | .pyDatetime t => some (some t)
    | _ => none

/-- A freshly allocated `Job` object before `__init__` runs `_modify` (or
the shell produced by unpickling before `__setstate__`): no slot assigned.
The non-`Option` fields carry inert placeholders that no claim observes. -/
def freshJob : Job where
  id := none
  func := none
  func_ref := none
  args := none
  kwargs := none
  name := none
  misfire_grace_time := none
  coalesce := false
  max_instances := 1
  trigger := fun _ _ => none
  executor := "default"
  next_run_time := none

/-- The trigger of the spec section 8 scenario: successive fire times
10:05, 10:10, 10:20 (as minutes: 605, 610, 620), then exhausted. -/
def scenarioTrigger : Nat → Nat → Option Nat := fun prev _ =>
  if prev < 605 then some 605
  else if prev < 610 then some 610
  else if prev < 620 then some 620
  else none

/-- The job of the spec section 8 scenario: `next_run_time = 10:00`
(minute 600), with `scenarioTrigger`. -/
def scenarioJob : Job where
  id := some "job1"
  func := some 0
  func_ref := some "mod:fn"
  args := some (.pyTuple [])
  kwargs := some (.pyDict [])
  name := some "fn"
  misfire_grace_time := none
  coalesce := false
  max_instances := 1
  trigger := scenarioTrigger
  executor := "default"
  next_run_time := some 600

/-! ### Lemmas about run-time enumeration -/

/-- Every time appended by the loop passed the `next_run_time <= now` test. -/
theorem getRunTimesAux_mem_le (trig : Nat → Nat → Option Nat) (now : Nat) :
    ∀ (fuel : Nat) (cur : Option Nat) (x : Nat),
      x ∈ Job.getRunTimesAux trig now cur fuel → x ≤ now := by
  intro fuel
  induction fuel with
  | zero =>
    intro cur x hx
    cases cur <;> simp [Job.getRunTimesAux] at hx
  | succ n ih =>
    intro cur x hx
    cases cur with
    | none => simp [Job.getRunTimesAux] at hx
    | some t =>
      simp only [Job.getRunTimesAux] at hx
      by_cases h : t ≤ now
      · rw [if_pos h] at hx
        rcases List.mem_cons.1 hx with h1 | h1
        · omega
        · exact ih _ _ h1
      · rw [if_neg h] at hx
        simp at hx

/-- A nonempty loop result starts with the cursor value it was entered with. -/
theorem getRunTimesAux_head (trig : Nat → Nat → Option Nat) (now : Nat) :
    ∀ (fuel : Nat) (cur : Option Nat) (y : Nat) (l : List Nat),
      Job.getRunTimesAux trig now cur fuel = y :: l → cur = some y := by
  intro fuel cur y l h
  match fuel, cur with
  | 0, some t => simp [Job.getRunTimesAux] at h
  | 0, none => simp [Job.getRunTimesAux] at h
  | n + 1, none => simp [Job.getRunTimesAux] at h
  | n + 1, some t =>
    simp only [Job.getRunTimesAux] at h
    by_cases ht : t ≤ now
    · rw [if_pos ht] at h
      exact congrArg some (List.cons.injEq .. ▸ h |>.1).symm ▸ rfl
    · rw [if_neg ht] at h
      simp at h

/-- Under a strictly monotonic trigger the loop result is a `<`-chain. -/
theorem getRunTimesAux_chain (trig : Nat → Nat → Option Nat) (now : Nat)
    (hmono : ∀ p n t, trig p n = some t → p < t) :
    ∀ (fuel : Nat) (cur : Option Nat),
      List.Chain' (· < ·) (Job.getRunTimesAux trig now cur fuel) := by
  intro fuel
  induction fuel with
  | zero =>
    intro cur
    cases cur <;> simp [Job.getRunTimesAux]
  | succ n ih =>
    intro cur
    cases cur with
    | none => simp [Job.getRunTimesAux]
    | some t =>
      simp only [Job.getRunTimesAux]
      by_cases h : t ≤ now
      · rw [if_pos h]
        refine List.chain'_cons'.2 ⟨?_, ih _⟩
        intro y hy
        rcases hl : Job.getRunTimesAux trig now (trig t now) n with _ | ⟨z, l⟩
        · rw [hl] at hy; simp at hy
        · rw [hl] at hy
          simp only [List.head?] at hy
          have hz : trig t now = some z := getRunTimesAux_head trig now n _ z l hl
          have := hmono t now z hz
          cases hy
          omega
      · rw [if_neg h]
        simp

/-! ### Claims C2 and C3: run-time enumeration -/

/-- C2, as stated, is false: `_get_run_times` never writes to the job, so
after enumerating `scenarioJob` (with `next_run_time = 10:00`) at
`now = 10:12` the field still holds 10:00, not 10:20, and a later
enumeration at `now = 10:21` re-returns the already-returned times
10:00, 10:05, 10:10. -/
theorem c2_counterexample :
    (Job._get_run_times scenarioJob 612).1 = [600, 605, 610] ∧
    (Job._get_run_times scenarioJob 612).2.next_run_time = some 600 ∧
    (Job._get_run_times scenarioJob 612).2.next_run_time ≠ some 620 ∧
    (Job._get_run_times ((Job._get_run_times scenarioJob 612).2) 621).1
      = [600, 605, 610, 620] :=
  ⟨by decide, by decide, by decide, by decide⟩

/-- C2 amended: `_get_run_times` returns the due times without modifying
the job; `next_run_time` keeps its pre-call value, and advancing it to the
first not-yet-due value is the caller's responsibility.  In the spec's
scenario, enumerating at `now = 10:12` returns `[10:00, 10:05, 10:10]` and
leaves `next_run_time = 10:00`; only once the caller stores 10:20 does a
later call at `now = 10:21` return exactly `[10:20]`. -/
theorem c2_enumeration_does_not_advance :
    (∀ (j : Job) (now : Nat), (Job._get_run_times j now).2 = j) ∧
    (Job._get_run_times scenarioJob 612).1 = [600, 605, 610] ∧
    (Job._get_run_times scenarioJob 612).2.next_run_time = some 600 ∧
    (Job._get_run_times { scenarioJob with next_run_time := some 620 } 621).1 = [620] :=
  ⟨fun _ _ => rfl, by decide, by decide, by decide⟩

/-- C3: for a strictly monotonic trigger, `_get_run_times` returns a
strictly increasing sequence of times, each at most `now`, determined
solely by `(trigger, next_run_time, now)`. -/
theorem c3_enumeration_monotone (j : Job) (now : Nat)
    (hmono : ∀ p n t, j.trigger p n = some t → p < t) :
    List.Pairwise (· < ·) (Job._get_run_times j now).1 ∧
    (∀ x ∈ (Job._get_run_times j now).1, x ≤ now) ∧
    (∀ j2 : Job, j2.trigger = j.trigger → j2.next_run_time = j.next_run_time →
      (Job._get_run_times j2 now).1 = (Job._get_run_times j now).1) := by
  refine ⟨?_, ?_, ?_⟩
  · exact List.chain'_iff_pairwise.1 (getRunTimesAux_chain j.trigger now hmono _ _)
  · intro x hx
    exact getRunTimesAux_mem_le j.trigger now _ _ x hx
  · intro j2 h1 h2
    simp [Job._get_run_times, h1, h2]

/-- Witness for C3 at the concrete scenario job and `now = 10:12`. -/
theorem c3_enumeration_monotone_witness :
    List.Pairwise (· < ·) (Job._get_run_times scenarioJob 612).1 ∧
    (∀ x ∈ (Job._get_run_times scenarioJob 612).1, x ≤ 612) := by
  have hm : ∀ p n t, scenarioJob.trigger p n = some t → p < t := by
    intro p n t h
    simp only [scenarioJob, scenarioTrigger] at h
    split at h
    · injection h with h2
      omega
    · split at h
      · injection h with h2
        omega
      · split at h
        · injection h with h2
          omega
        · exact absurd h (by simp)
  exact ⟨(c3_enumeration_monotone scenarioJob 612 hm).1,
         (c3_enumeration_monotone scenarioJob 612 hm).2.1⟩

/-! ### Lemmas about the validation phase -/

/-- A successful validation implies the batch contained no unrecognized
field names (the check `if changes: raise AttributeError` is the last
validation step). -/
theorem validate_ok_unknown {env : Env} {j : Job} {c : Changes} {a : Approved}
    (h : Job.validate env j c = .ok a) : c.unknown = [] := by
  unfold Job.validate at h
  cases h1 : Job.checkId j c with
  | error e => simp [h1] at h
  | ok x1 =>
  simp only [h1] at h
  cases h2 : Job.checkFuncGroup env j c with
  | error e => simp [h2] at h
  | ok p =>
  obtain ⟨fg, nc⟩ := p
  simp only [h2] at h
  cases h3 : Job.checkName nc with
  | error e => simp [h3] at h
  | ok x3 =>
  simp only [h3] at h
  cases h4 : Job.checkMisfire c.misfire_grace_time with
  | error e => simp [h4] at h
  | ok x4 =>
  simp only [h4] at h
  cases h5 : Job.checkCoalesce c.coalesce with
  | error e => simp [h5] at h
  | ok x5 =>
  simp only [h5] at h
  cases h6 : Job.checkMaxInstances c.max_instances with
  | error e => simp [h6] at h
  | ok x6 =>
  simp only [h6] at h
  cases h7 : Job.checkTrigger c.trigger with
  | error e => simp [h7] at h
  | ok x7 =>
  simp only [h7] at h
  cases h8 : Job.checkExecutor c.executor with
  | error e => simp [h8] at h
  | ok x8 =>
  simp only [h8] at h
  cases h9 : Job.checkNextRunTime env c.next_run_time with
  | error e => simp [h9] at h
  | ok x9 =>
  simp only [h9] at h
  by_cases hu : c.unknown.isEmpty
  · exact List.isEmpty_iff.mp hu
  · simp [hu] at h

/-- A func/args/kwargs batch with invalid `args` (a string or any
non-iterable) or invalid `kwargs` (any non-mapping) never passes the
func-group branch. -/
theorem checkFuncGroup_bad (env : Env) (j : Job) (c : Changes)
    (h : (∃ a, c.args = some a ∧ (a.isStr = true ∨ a.isIterable = false)) ∨
         (∃ k, c.kwargs = some k ∧ k.isMapping = false)) :
    ∃ e, Job.checkFuncGroup env j c = .error e := by
  have hb : (c.func.isSome || c.args.isSome || c.kwargs.isSome) = true := by
    rcases h with ⟨a, ha, _⟩ | ⟨k, hk, _⟩
    · simp [ha]
    · simp [hk]
  unfold Job.checkFuncGroup
  rw [if_pos hb]
  cases hf : Job.readFunc j c with
  | error e => exact ⟨e, by simp [hf]⟩
  | ok funcObj =>
  cases hA : Job.readArgs j c with
  | error e => exact ⟨e, by simp [hf, hA]⟩
  | ok argsObj =>
  cases hK : Job.readKwargs j c with
  | error e => exact ⟨e, by simp [hf, hA, hK]⟩
  | ok kwargsObj =>
  cases hR : Job.resolveFunc env funcObj with
  | error e => exact ⟨e, by simp [hf, hA, hK, hR]⟩
  | ok fr =>
  obtain ⟨f, r⟩ := fr
  by_cases hargs : (argsObj.isStr || !argsObj.isIterable) = true
  · exact ⟨.typeError "args must be a non-string iterable",
      by simp [hf, hA, hK, hR, hargs]⟩
  · have hkw : (kwargsObj.isStr || !kwargsObj.isMapping) = true := by
      rcases h with ⟨a, ha, hbad⟩ | ⟨k, hk, hbad⟩
      · exfalso
        simp only [Job.readArgs, ha, Except.ok.injEq] at hA
        subst hA
        simp only [Bool.or_eq_true, Bool.not_eq_true'] at hargs
        rcases hbad with hb1 | hb1 <;> simp [hb1] at hargs
      · simp only [Job.readKwargs, hk, Except.ok.injEq] at hK
        subst hK
        simp [hbad]
    exact ⟨.typeError "kwargs must be a dict-like object",
      by simp [hf, hA, hK, hR, hargs, hkw]⟩

/-! ### Claims C1, C4, C6: the validated mutation protocol -/

/-- C1: `_modify` is all-or-nothing.  Whenever it raises — in particular
whenever the batch contains an unrecognized field name — the job state
after the call equals the state before it (all `setattr` calls happen
after every validation step). -/
theorem c1_modify_atomic (env : Env) (j : Job) (c : Changes) :
    ((Job._modify env j c).2.isSome = true → (Job._modify env j c).1 = j) ∧
    (c.unknown ≠ [] → (Job._modify env j c).2.isSome = true) := by
  constructor
  · intro h
    unfold Job._modify at h ⊢
    cases hv : Job.validate env j c with
    | error e => rfl
    | ok a => simp [hv] at h
  · intro h
    unfold Job._modify
    cases hv : Job.validate env j c with
    | error e => rfl
    | ok a => exact absurd (validate_ok_unknown hv) h

/-- Witness for C1: a batch containing only the unrecognized field name
`"foo"` is rejected and leaves the job unchanged. -/
theorem c1_modify_atomic_witness :
    (Job._modify env0 scenarioJob { unknown := ["foo"] }).2.isSome = true ∧
    (Job._modify env0 scenarioJob { unknown := ["foo"] }).1 = scenarioJob := by
  have h := c1_modify_atomic env0 scenarioJob { unknown := ["foo"] }
  have h2 := h.2 (by simp)
  exact ⟨h2, h.1 h2⟩

/-- C4: once a job's `id` is set, any batch proposing an `id` change — for
a proposed value of any type — fails, and the existing id is unchanged. -/
theorem c4_id_immutable (env : Env) (j : Job) (c : Changes) (i : String) (v : PyObj)
    (hid : j.id = some i) (hc : c.id = some v) :
    (Job._modify env j c).2.isSome = true ∧ (Job._modify env j c).1.id = some i := by
  have herr : ∃ e, Job.checkId j c = .error e := by
    unfold Job.checkId
    rw [hc]
    cases v <;> simp [hid]
  obtain ⟨e, he⟩ := herr
  have hv : Job.validate env j c = .error e := by
    unfold Job.validate
    rw [he]
  unfold Job._modify
  rw [hv]
  exact ⟨rfl, hid⟩

/-- Witness for C4: proposing `id = "other"` on `scenarioJob` fails and
keeps the id `"job1"`. -/
theorem c4_id_immutable_witness :
    (Job._modify env0 scenarioJob { id := some (.pyStr "other") }).2.isSome = true ∧
    (Job._modify env0 scenarioJob { id := some (.pyStr "other") }).1.id = some "job1" :=
  c4_id_immutable env0 scenarioJob { id := some (.pyStr "other") } "job1"
    (.pyStr "other") rfl rfl

/-- C6: a batch touching the func/args/kwargs group whose `args` is a
string or a non-iterable, or whose `kwargs` is a non-mapping (including a
string), is always rejected with no state change. -/
theorem c6_args_kwargs_validation (env : Env) (j : Job) (c : Changes)
    (h : (∃ a, c.args = some a ∧ (a.isStr = true ∨ a.isIterable = false)) ∨
         (∃ k, c.kwargs = some k ∧ k.isMapping = false)) :
    (Job._modify env j c).2.isSome = true ∧ (Job._modify env j c).1 = j := by
  have hv : ∃ e, Job.validate env j c = .error e := by
    obtain ⟨e2, he2⟩ := checkFuncGroup_bad env j c h
    cases hi : Job.checkId j c with
    | error e => exact ⟨e, by unfold Job.validate; rw [hi]⟩
    | ok idOk => exact ⟨e2, by unfold Job.validate; simp [hi, he2]⟩
  obtain ⟨e, he⟩ := hv
  unfold Job._modify
  rw [he]
  exact ⟨rfl, rfl⟩

/-- Witness for C6: proposing `args = "abc"` (a single string) on
`scenarioJob` is rejected and leaves the job unchanged. -/
theorem c6_args_kwargs_validation_witness :
    (Job._modify env0 scenarioJob { args := some (.pyStr "abc") }).2.isSome = true ∧
    (Job._modify env0 scenarioJob { args := some (.pyStr "abc") }).1 = scenarioJob :=
  c6_args_kwargs_validation env0 scenarioJob { args := some (.pyStr "abc") }
    (Or.inl ⟨.pyStr "abc", rfl, Or.inl rfl⟩)

/-! ### Claim C5: the empty-string id (code bug) -/

/-- C5 fails on the code: the id branch of `_modify` checks only
`isinstance(value, six.string_types)` — despite its own error message
"id must be a nonempty string" — so on a job whose id is not yet set,
proposing `id = ""` validates and the empty string is committed as the id,
with no error raised. -/
theorem c5_empty_id_accepted :
    Job._modify env0 freshJob { id := some (.pyStr "") } =
      ({ freshJob with id := some "" }, none) := by
  rfl

/-! ### Claim C7: non-serializable callables -/

/-- C7: mutating `func` to a direct invocable with no derivable textual
reference succeeds (`func_ref` is recorded as `None`); a subsequent
`__getstate__` on the result fails with the explicit refusal error; and
conversely `__getstate__` never fails when a nonempty textual reference
was recorded. -/
theorem c7_non_serializable (env : Env) (j : Job) (f : Nat) (a k : PyObj) (nm : String)
    (hargs : j.args = some a) (hkwargs : j.kwargs = some k) (hname : j.name = some nm)
    (hA : a.isStr = false) (hAi : a.isIterable = true) (hKm : k.isMapping = true)
    (hnoref : env.obj_to_ref f = none) (hsig : env.check_callable_args f a k = true) :
    Job._modify env j { func := some (.pyCallable f) } =
      ({ j with func := some f, func_ref := none }, none) ∧
    Job.getstate (Job._modify env j { func := some (.pyCallable f) }).1 =
      .error (.valueError Job.noFuncRefMsg) ∧
    (∀ (j2 : Job) (r i2 nm2 : String) (a2 k2 : PyObj),
      j2.func_ref = some r → r.isEmpty = false → j2.id = some i2 →
      j2.args = some a2 → j2.kwargs = some k2 → j2.name = some nm2 →
      ∃ st, Job.getstate j2 = .ok st) := by
  have hKs : k.isStr = false := by
    cases k <;> simp_all [PyObj.isMapping, PyObj.isStr]
  have hv : Job.validate env j { func := some (.pyCallable f) } =
      .ok { funcGroup := some (f, none, a, k) } := by
    unfold Job.validate Job.checkId Job.checkFuncGroup Job.readFunc Job.readArgs
      Job.readKwargs Job.resolveFunc Job.checkName Job.checkMisfire Job.checkCoalesce
      Job.checkMaxInstances Job.checkTrigger Job.checkExecutor Job.checkNextRunTime
    simp [hargs, hkwargs, hname, hnoref, hsig, hA, hAi, hKm, hKs]
  have hmod : Job._modify env j { func := some (.pyCallable f) } =
      ({ j with func := some f, func_ref := none }, none) := by
    unfold Job._modify
    rw [hv]
    simp [Job.commit, hargs, hkwargs]
  refine ⟨hmod, ?_, ?_⟩
  · rw [hmod]
    simp [Job.getstate, Job.funcRefFalsy]
  · intro j2 r i2 nm2 a2 k2 h1 h2 h3 h4 h5 h6
    exact ⟨{ version := some 1, id := i2, func := r, trigger := j2.trigger,
             executor := j2.executor, args := a2, kwargs := k2, name := nm2,
             misfire_grace_time := j2.misfire_grace_time, coalesce := j2.coalesce,
             max_instances := j2.max_instances, next_run_time := j2.next_run_time },
           by simp [Job.getstate, Job.funcRefFalsy, h1, h2, h3, h4, h5, h6]⟩

/-- Witness for C7: callable `1` has no derivable reference under `env0`;
mutating `scenarioJob` to it succeeds with `func_ref = None` and the
serialization then fails. -/
theorem c7_non_serializable_witness :
    Job._modify env0 scenarioJob { func := some (.pyCallable 1) } =
      ({ scenarioJob with func := some 1, func_ref := none }, none) ∧
    Job.getstate (Job._modify env0 scenarioJob { func := some (.pyCallable 1) }).1 =
      .error (.valueError Job.noFuncRefMsg) := by
  have h := c7_non_serializable env0 scenarioJob 1 (.pyTuple []) (.pyDict []) "fn"
    rfl rfl rfl rfl rfl rfl (by decide) rfl
  exact ⟨h.1, h.2.1⟩

/-! ### Claim C8: the forward-compatibility version guard -/

/-- C8: `__setstate__` on a snapshot whose version tag exceeds 1 fails
with the version error before assigning any field: the object state is
exactly the pre-call state. -/
theorem c8_version_guard (env : Env) (j : Job) (s : Job.JobState1) (v : Int)
    (hver : s.version = some v) (hgt : v > 1) :
    Job.setstate env j s = (j, some (.valueError Job.versionErrMsg)) := by
  unfold Job.setstate
  rw [hver]
  simp only [Option.getD_some]
  rw [if_pos hgt]

/-- A concrete version-2 snapshot. -/
def snap2 : Job.JobState1 where
  version := some 2
  id := "job1"
  func := "mod:fn"
  trigger := scenarioTrigger
  executor := "default"
  args := .pyTuple []
  kwargs := .pyDict []
  name := "fn"
  misfire_grace_time := none
  coalesce := false
  max_instances := 1
  next_run_time := some 600

/-- Witness for C8 at the concrete version-2 snapshot. -/
theorem c8_version_guard_witness :
    Job.setstate env0 freshJob snap2 = (freshJob, some (.valueError Job.versionErrMsg)) :=
  c8_version_guard env0 freshJob snap2 2 rfl (by norm_num)

/-! ### Claim C9: serialization round-trip -/

/-- C9: for a serializable job (nonempty derived reference, resolving back
to the original callable), `__setstate__` after `__getstate__` reproduces
id, executor, args, kwargs, name, misfire_grace_time, coalesce,
max_instances and next_run_time exactly, and resolves the same callable. -/
theorem c9_roundtrip (env : Env) (j : Job) (fresh : Job) (r i nm : String)
    (a k : PyObj) (f : Nat)
    (h1 : j.func_ref = some r) (h2 : r.isEmpty = false)
    (h3 : j.id = some i) (h4 : j.args = some a) (h5 : j.kwargs = some k)
    (h6 : j.name = some nm) (h7 : j.func = some f) (h8 : env.ref_to_obj r = some f) :
    ∃ st j2, Job.getstate j = .ok st ∧ Job.setstate env fresh st = (j2, none) ∧
      j2.id = j.id ∧ j2.executor = j.executor ∧ j2.args = j.args ∧
      j2.kwargs = j.kwargs ∧ j2.name = j.name ∧
      j2.misfire_grace_time = j.misfire_grace_time ∧ j2.coalesce = j.coalesce ∧
      j2.max_instances = j.max_instances ∧ j2.next_run_time = j.next_run_time ∧
      j2.func = j.func := by
  refine ⟨{ version := some 1, id := i, func := r, trigger := j.trigger,
            executor := j.executor, args := a, kwargs := k, name := nm,
            misfire_grace_time := j.misfire_grace_time, coalesce := j.coalesce,
            max_instances := j.max_instances, next_run_time := j.next_run_time },
          { id := some i, func := some f, func_ref := some r, args := some a,
            kwargs := some k, name := some nm,
            misfire_grace_time := j.misfire_grace_time, coalesce := j.coalesce,
            max_instances := j.max_instances, trigger := j.trigger,
            executor := j.executor, next_run_time := j.next_run_time },
          ?_, ?_, ?_⟩
  · simp [Job.getstate, Job.funcRefFalsy, h1, h2, h3, h4, h5, h6]
  · unfold Job.setstate
    simp only [Option.getD_some]
    rw [if_neg (by norm_num)]
    simp [h8]
  · simp [h3, h4, h5, h6, h7]

/-- Witness for C9: `scenarioJob` round-trips under `env0`. -/
theorem c9_roundtrip_witness :
    ∃ st j2, Job.getstate scenarioJob = .ok st ∧
      Job.setstate env0 freshJob st = (j2, none) ∧
      j2.id = scenarioJob.id ∧ j2.executor = scenarioJob.executor ∧
      j2.args = scenarioJob.args ∧ j2.kwargs = scenarioJob.kwargs ∧
      j2.name = scenarioJob.name ∧
      j2.misfire_grace_time = scenarioJob.misfire_grace_time ∧
      j2.coalesce = scenarioJob.coalesce ∧
      j2.max_instances = scenarioJob.max_instances ∧
      j2.next_run_time = scenarioJob.next_run_time ∧
      j2.func = scenarioJob.func :=
  c9_roundtrip env0 scenarioJob freshJob "mod:fn" "job1" "fn"
    (.pyTuple []) (.pyDict []) 0 rfl rfl rfl rfl rfl rfl rfl (by decide)

/-! ### Claim C10: a snapshot with no version tag -/

/-- C10: a snapshot carrying no version tag is treated as version 1 by
`state.get('version', 1)`: `__setstate__` behaves exactly as on the same
snapshot tagged `version = 1`, and with a resolvable callable reference
the load completes without error. -/
theorem c10_missing_version_tag (env : Env) (j : Job) (s : Job.JobState1)
    (h : s.version = none) :
    Job.setstate env j s = Job.setstate env j { s with version := some 1 } ∧
    (∀ f, env.ref_to_obj s.func = some f → (Job.setstate env j s).2 = none) := by
  constructor
  · unfold Job.setstate
    rw [h]
    simp only [Option.getD_none, Option.getD_some]
  · intro f hf
    unfold Job.setstate
    rw [h]
    simp [hf]

/-- A concrete snapshot lacking the version tag. -/
def snapNoVersion : Job.JobState1 := { snap2 with version := none }

/-- Witness for C10 at the concrete untagged snapshot. -/
theorem c10_missing_version_tag_witness :
    Job.setstate env0 freshJob snapNoVersion =
      Job.setstate env0 freshJob { snapNoVersion with version := some 1 } ∧
    (∀ f, env0.ref_to_obj snapNoVersion.func = some f →
      (Job.setstate env0 freshJob snapNoVersion).2 = none) :=
  c10_missing_version_tag env0 freshJob snapNoVersion rfl
